import Mathlib

/-!
Verification of the face-recognition attendance pipeline of the
operator-frontend repository.

The embedding below translates the core of the repository into Lean:

* the data model (`Operator`, `LabeledFaceDescriptors`, `AttendanceRecord`);
* the matcher used by `recognizeFace` (the `FaceMatcher` of the face-api.js
  library that the component instantiates, modelled faithfully from that
  library's `computeMeanDistance` / `matchDescriptor` / `findBestMatch`,
  with its default distance threshold 0.6);
* the gallery builder `loadDescriptors` (per-operator fetch + detect joined
  positionally by `Promise.all`, null results filtered out);
* the recognition attempt `recognizeFace` of `src/components/MainPage.jsx`
  and the variant `recognizeFace1` / `handleMarkAttendance1` of
  `src/components/MainPage1.jsx`;
* the modal session state machine (trigger button with `disabled={isRecognizing}`,
  the `finally` block that stops the camera tracks, modal-unmount teardown);
* the MQTT notifier `publishLedStatus` of the mqtt service.

Embedding distances are rational numbers; the Euclidean distance computed by
the face-api.js library on raw descriptors is abstracted as a parameter
`dist`, since the repository code treats it as a black box.
-/

namespace OperatorFrontend

/-- Operator record as fetched from `GET /api/operators/{line}` and used by
the components: Mongo id, display name, employee id, station, photo path and
LED index. -/
structure Operator where
  _id : String
  name : String
  employeeId : String
  station : String
  imagePath : String
  ledIndex : Int
  deriving Repr, DecidableEq

/-- face-api.js `LabeledFaceDescriptors`: a label together with the descriptor
vectors computed for that label.  The components construct each entry as
`new faceapi.LabeledFaceDescriptors(op._id, [detection.descriptor])`. -/
structure LabeledFaceDescriptors (α : Type) where
  label : String
  descriptors : List α
  deriving Repr, DecidableEq

/-- face-api.js `FaceMatch`: a label and its (mean) distance to the probe. -/
structure FaceMatch where
  label : String
  distance : ℚ
  deriving Repr, DecidableEq

/-- face-api.js `FaceMatcher.computeMeanDistance`: the mean of the distances
between the query descriptor and each stored descriptor
(`descriptors.map(d => euclideanDistance(d, q)).reduce((d1,d2) => d1+d2, 0)
/ (descriptors.length || 1)`). -/
def computeMeanDistance {α : Type} (dist : α → α → ℚ) (q : α) (ds : List α) : ℚ :=
  (ds.map (fun d => dist d q)).foldl (fun d1 d2 => d1 + d2) 0
    / (if ds.length = 0 then 1 else (ds.length : ℚ))

/-- The `FaceMatch` a gallery entry contributes for a query descriptor. -/
def toFaceMatch {α : Type} (dist : α → α → ℚ) (q : α)
    (ld : LabeledFaceDescriptors α) : FaceMatch :=
  ⟨ld.label, computeMeanDistance dist q ld.descriptors⟩

/-- face-api.js `FaceMatcher.matchDescriptor`: map every labeled descriptor to
its mean distance and reduce with
`(best, curr) => best.distance < curr.distance ? best : curr`.
The constructor of `FaceMatcher` rejects an empty input, and `recognizeFace`
only builds a matcher after checking `labeledDescriptors.length !== 0`, so the
gallery is passed here as a head `l` and tail `ls`. -/
def matchDescriptor {α : Type} (dist : α → α → ℚ) (q : α)
    (l : LabeledFaceDescriptors α) (ls : List (LabeledFaceDescriptors α)) : FaceMatch :=
  (ls.map (toFaceMatch dist q)).foldl
    (fun best curr => if best.distance < curr.distance then best else curr)
    (toFaceMatch dist q l)

/-- face-api.js `FaceMatcher.findBestMatch`: return the best match if its
distance is below the matcher's distance threshold, otherwise a `FaceMatch`
with the sentinel label "unknown" and the same distance.  The components
construct the matcher as `new faceapi.FaceMatcher(labeledDescriptors)`, so the
threshold is the library default 0.6. -/
def findBestMatch {α : Type} (dist : α → α → ℚ) (threshold : ℚ) (q : α)
    (l : LabeledFaceDescriptors α) (ls : List (LabeledFaceDescriptors α)) : FaceMatch :=
  let b := matchDescriptor dist q l ls
  if b.distance < threshold then b else ⟨"unknown", b.distance⟩

/-- Gallery builder `loadDescriptors` of `MarkAttendanceModal`:
`operators.map` launches one fetch-image + detect-single-face task per
operator; a task resolves to a `LabeledFaceDescriptors` on success and to
`null` when the fetch throws or no face is detected; `Promise.all` joins the
results positionally and `.filter(d => d !== null)` keeps the successes.
The per-operator photo fetch + face detection outcome is abstracted as
`fetchDetect : Operator → Option α` (`none` models the `null` result). -/
def loadDescriptors {α : Type} (fetchDetect : Operator → Option α)
    (operators : List Operator) : List (LabeledFaceDescriptors α) :=
  ((operators.map fun op =>
      (fetchDetect op).map fun d => LabeledFaceDescriptors.mk op._id [d])).filterMap id

/-- Attendance record posted to `POST /api/attendance/{line}`:
`{operatorId: matchedOperator._id, date: today, timestamp: currentTimestamp}`. -/
structure AttendanceRecord where
  operatorId : String
  date : String
  timestamp : String
  deriving Repr, DecidableEq

/-- Terminal outcome of one `recognizeFace` invocation, one constructor per
return path of the function. -/
inductive Outcome
  | webcamNotReady
  | emptyGallery
  | noFaceFound
  | matchedNotFound
  | matched (operatorId : String)
  | writeFailed (operatorId : String)
  | rejected
  deriving Repr, DecidableEq

/-- Whether the outcome is a positive match decision.  A failed attendance
write is reported but does not undo the match decision, so `writeFailed`
counts as accepted. -/
def Outcome.isAccept : Outcome → Bool
  | .matched _ => true
  | .writeFailed _ => true
  | _ => false

/-- Observable effects of one `recognizeFace` invocation:
its outcome, the attendance-record POSTs it issued (`writeAttempts`, whether
or not the server accepted them), the `(station, timestamp)` POSTs to the
`/api/attendance/{line}/fail` endpoint (`failReports`, only ever issued by
the MainPage1 variant), the number of MQTT messages delivered to the broker
(`published`), and whether the `finally` block that stops the camera tracks
ran (`stoppedTracks`; the two early returns before the `try` block skip it). -/
structure AttemptResult where
  outcome : Outcome
  writeAttempts : List AttendanceRecord
  failReports : List (String × String)
  published : Nat
  stoppedTracks : Bool
  deriving Repr, DecidableEq

/-- The `recognizeFace` function of `src/components/MainPage.jsx`.
Inputs: `webcamReady` models `webcamRef.current.video.readyState === 4`;
`gallery` is the `labeledDescriptors` state; `detection` is the single-frame
detect-and-describe result (`none` models no face detected); `writeOk` models
whether the attendance POST succeeds.  Paths, in source order: webcam not
ready (early return, no track stop); empty gallery (early return, no track
stop); no face found; best match accepted iff
`bestMatch.label !== 'unknown' && bestMatch.distance < 0.6`, in which case the
matched operator is looked up in `operators` and one attendance record is
posted; otherwise the attempt is rejected.  The `finally` block stops the
camera tracks on every path through the `try`. -/
def recognizeFace {α : Type} (dist : α → α → ℚ) (webcamReady : Bool)
    (gallery : List (LabeledFaceDescriptors α)) (operators : List Operator)
    (today timestamp : String) (detection : Option α) (writeOk : Bool) : AttemptResult :=
  if webcamReady = false then
    ⟨.webcamNotReady, [], [], 0, false⟩
  else
    match gallery, detection with
    | [], _ => ⟨.emptyGallery, [], [], 0, false⟩
    | _ :: _, none => ⟨.noFaceFound, [], [], 0, true⟩
    | l :: ls, some probe =>
      let bestMatch := findBestMatch dist (3/5) probe l ls
      if bestMatch.label ≠ "unknown" ∧ bestMatch.distance < 3/5 then
        match operators.find? (fun op => op._id == bestMatch.label) with
        | some op =>
          if writeOk then
            ⟨.matched op._id, [⟨op._id, today, timestamp⟩], [], 0, true⟩
          else
            ⟨.writeFailed op._id, [⟨op._id, today, timestamp⟩], [], 0, true⟩
        | none => ⟨.matchedNotFound, [], [], 0, true⟩
      else
        ⟨.rejected, [], [], 0, true⟩

/-- The `recognizeFace` function of `src/components/MainPage1.jsx`.  Identical
to the MainPage variant except that the no-face path and the rejection path
additionally POST `{station: selectedStation, timestamp}` to the
`/api/attendance/{line}/fail` endpoint. -/
def recognizeFace1 {α : Type} (dist : α → α → ℚ) (webcamReady : Bool) (station : String)
    (gallery : List (LabeledFaceDescriptors α)) (operators : List Operator)
    (today timestamp : String) (detection : Option α) (writeOk : Bool) : AttemptResult :=
  if webcamReady = false then
    ⟨.webcamNotReady, [], [], 0, false⟩
  else
    match gallery, detection with
    | [], _ => ⟨.emptyGallery, [], [], 0, false⟩
    | _ :: _, none => ⟨.noFaceFound, [], [(station, timestamp)], 0, true⟩
    | l :: ls, some probe =>
      let bestMatch := findBestMatch dist (3/5) probe l ls
      if bestMatch.label ≠ "unknown" ∧ bestMatch.distance < 3/5 then
        match operators.find? (fun op => op._id == bestMatch.label) with
        | some op =>
          if writeOk then
            ⟨.matched op._id, [⟨op._id, today, timestamp⟩], [], 0, true⟩
          else
            ⟨.writeFailed op._id, [⟨op._id, today, timestamp⟩], [], 0, true⟩
        | none => ⟨.matchedNotFound, [], [], 0, true⟩
      else
        ⟨.rejected, [], [(station, timestamp)], 0, true⟩

/-- Result of one `handleMarkAttendance` invocation of MainPage1: the inner
attempt's effects, whether the MQTT publish step was reached, how many MQTT
messages actually reached the broker, and whether the catch block's
"Error marking attendance" alert fired. -/
structure SessionOutcome where
  attempt : AttemptResult
  publishAttempted : Bool
  mqttPublished : Nat
  errorAlert : Bool
  deriving Repr, DecidableEq

/-- The `handleMarkAttendance` function of `src/components/MainPage1.jsx`.
After `recognizeFace` resolves it executes
`mqttService.publishAttendanceChange({operatorName: formattedAttendance.operatorName, ...})`.
The identifier `formattedAttendance` is never defined anywhere in the
component, so evaluating the argument object throws a `ReferenceError` before
any MQTT call is made (and `mqttService` has no `publishAttendanceChange`
method either); the surrounding catch block handles the error with the alert
"Error marking attendance".  Consequently every invocation reaches the publish
step, delivers zero MQTT messages, and ends in the error alert. -/
def handleMarkAttendance1 {α : Type} (dist : α → α → ℚ) (webcamReady : Bool)
    (station : String) (gallery : List (LabeledFaceDescriptors α))
    (operators : List Operator) (today timestamp : String)
    (detection : Option α) (writeOk : Bool) : SessionOutcome :=
  let r := recognizeFace1 dist webcamReady station gallery operators today timestamp
    detection writeOk
  { attempt := r, publishAttempted := true, mqttPublished := 0, errorAlert := true }

/-- State of the live camera track held by the modal's webcam element:
`noTrack` before `getUserMedia` succeeds (or after it fails), `live` while
streaming, `stopped` after `track.stop()`.  `MediaStreamTrack.stop()` on an
already ended track has no effect, which is why stopping is modelled as a
transition only out of `live`. -/
inductive TrackState
  | noTrack
  | live
  | stopped
  deriving Repr, DecidableEq

/-- Whether the track is currently live (`video.readyState === 4` requires a
live stream). -/
def TrackState.isLive : TrackState → Bool
  | .live => true
  | _ => false

/-- State of one `MarkAttendanceModal` session: whether a recognition attempt
is in flight (`isRecognizing`), the camera track, the number of times a live
track has been stopped (`stops` counts `live → stopped` transitions), and the
attendance records written so far. -/
structure SessionState where
  recognizing : Bool
  track : TrackState
  stops : Nat
  writes : List AttendanceRecord
  deriving Repr, DecidableEq

/-- The track-stopping statement
`webcamRef.current.video.srcObject.getTracks().forEach(track => track.stop())`
that appears in the `finally` block of `recognizeFace` and in the modal's
unmount cleanup: a live track becomes stopped (counted once); calling it with
no tracks or with already ended tracks changes nothing. -/
def stopTracks (s : SessionState) : SessionState :=
  match s.track with
  | .live => { s with track := .stopped, stops := s.stops + 1 }
  | _ => s

/-- Pressing the "Mark Attendance" button.  The button carries
`disabled={isRecognizing}`, so a press while an attempt is in flight produces
no event at all; otherwise `handleMarkAttendance` begins by
`setIsRecognizing(true)`. -/
def press (s : SessionState) : SessionState :=
  if s.recognizing then s else { s with recognizing := true }

/-- Completion of the in-flight `recognizeFace` call of
`src/components/MainPage.jsx` begun by `press`: the attempt runs against the
session's camera (`webcamReady` is whether the track is live), appends any
attendance write it performed, runs the `finally` track stop when the attempt
reached the `try` block, and resets `isRecognizing` (the `finally` blocks of
both `recognizeFace` and `handleMarkAttendance` do this on every path). -/
def completeAttempt {α : Type} (dist : α → α → ℚ)
    (gallery : List (LabeledFaceDescriptors α)) (operators : List Operator)
    (today timestamp : String) (detection : Option α) (writeOk : Bool)
    (s : SessionState) : SessionState :=
  if s.recognizing then
    let r := recognizeFace dist s.track.isLive gallery operators today timestamp
      detection writeOk
    let s1 : SessionState := { s with writes := s.writes ++ r.writeAttempts }
    let s2 := if r.stoppedTracks then stopTracks s1 else s1
    { s2 with recognizing := false }
  else s

/-- Session teardown: the cleanup returned by the modal's
`useEffect([showMarkModal])` stops the camera tracks on unmount. -/
def teardown (s : SessionState) : SessionState :=
  stopTracks s

/-- An MQTT message as published by the mqtt service: topic
`attendance/{line}/led`, payload `{ledIndex, status}`, qos 1. -/
structure LedMessage where
  topic : String
  ledIndex : Int
  status : String
  qos : Nat
  deriving Repr, DecidableEq

/-- State of the `MQTTService` singleton: the `connected` flag maintained by
the connection callbacks, the messages delivered to the broker, and the
console log. -/
structure MqttState where
  connected : Bool
  published : List LedMessage
  log : List String
  deriving Repr, DecidableEq

/-- `MQTTService.publishLedStatus(line, ledIndex, status)`: when
`this.connected` is false it logs "MQTT not connected" and returns without
publishing; otherwise it publishes `{ledIndex, status}` on
`attendance/{line}/led` with qos 1 and logs the success.  The function is
total: it never throws to its caller. -/
def publishLedStatus (line : String) (ledIndex : Int) (status : String)
    (s : MqttState) : MqttState :=
  if s.connected = false then
    { s with log := s.log ++ ["MQTT not connected"] }
  else
    { s with
      published := s.published ++ [⟨"attendance/" ++ line ++ "/led", ledIndex, status, 1⟩],
      log := s.log ++ ["Published LED status"] }

/-- `getAvailableLedIndexes` of `UpdateOperatorsModal` in
`src/components/MainPage.jsx`: `Array.from({length: 21}, (_, i) => i)`
filtered by `idx => !assigned.includes(idx)` where
`assigned = operators.map(op => op.ledIndex)`. -/
def getAvailableLedIndexes (operators : List Operator) : List Int :=
  ((List.range 21).map Int.ofNat).filter
    (fun idx => !((operators.map Operator.ledIndex).contains idx))

/-- The LED-index validation of `handleAddOperator`:
`parseInt(formData.ledIndex, 10)` followed by
`if (isNaN(ledIndex) || ledIndex < 0 || ledIndex > 20)` reject.  `none`
models a `NaN` parse result. -/
def ledIndexValid : Option Int → Bool
  | none => false
  | some i => !(i < 0 || i > 20)

/-- The accepted add path appends the created operator to the roster:
`setOperators([...operators, res.data])`. -/
def addOperator (operators : List Operator) (op : Operator) : List Operator :=
  operators ++ [op]

/-- `handleDeleteOperator(id)`:
`setOperators(operators.filter(op => op._id !== id))`. -/
def deleteOperator (operators : List Operator) (id : String) : List Operator :=
  operators.filter (fun op => op._id != id)

/-- Concrete distance function declaring every pair of descriptors at distance
0, used to instantiate the abstract embedding distance on concrete runs where
the probe matches the reference photo. -/
def wdistNear : ℚ → ℚ → ℚ := fun _ _ => 0

/-- Concrete distance function declaring every pair of descriptors at distance
1, used to instantiate the abstract embedding distance on concrete runs where
the probe is far from every reference photo. -/
def wdistFar : ℚ → ℚ → ℚ := fun _ _ => 1

/-- A sample operator record. -/
def opA : Operator :=
  ⟨"A", "Alice", "E1", "Station 1", "/images/operator-a.png", 3⟩

/-- A second sample operator record, on a different station and LED. -/
def opB : Operator :=
  ⟨"B", "Bob", "E2", "Station 2", "/images/operator-b.png", 5⟩

/-- A sample fetch-and-detect oracle: operator "A"'s photo yields a
descriptor, operator "B"'s photo fetch fails. -/
def fetchW : Operator → Option ℚ :=
  fun op => if op._id = "A" then some 0 else none

/-- A sample session state: streaming, no attempt in flight. -/
def sIdleLive : SessionState :=
  ⟨false, .live, 0, []⟩

/-- A sample session state: attempt in flight on a live track. -/
def sRecLive : SessionState :=
  ⟨true, .live, 0, []⟩

/-- A sample mqtt service state: disconnected, nothing published. -/
def mqttDisconnected : MqttState :=
  ⟨false, [], []⟩

/-! Helper lemmas. -/

/-- A fold whose step always returns one of its two arguments produces the
initial value or a list element. -/
theorem foldl_choice_mem (f : FaceMatch → FaceMatch → FaceMatch)
    (hf : ∀ a b, f a b = a ∨ f a b = b) (xs : List FaceMatch) (init : FaceMatch) :
    xs.foldl f init = init ∨ xs.foldl f init ∈ xs := by
  induction xs generalizing init with
  | nil => exact Or.inl rfl
  | cons x xs ih =>
    rw [List.foldl_cons]
    rcases ih (f init x) with h | h
    · rcases hf init x with h' | h'
      · exact Or.inl (by rw [h, h'])
      · exact Or.inr (by rw [h, h']; exact List.mem_cons_self x xs)
    · exact Or.inr (List.mem_cons_of_mem x h)

/-- The label of the reduced best match is the label of some gallery entry. -/
theorem matchDescriptor_label_mem {α : Type} (dist : α → α → ℚ) (q : α)
    (l : LabeledFaceDescriptors α) (ls : List (LabeledFaceDescriptors α)) :
    (matchDescriptor dist q l ls).label ∈ (l :: ls).map LabeledFaceDescriptors.label := by
  have hf : ∀ a b : FaceMatch,
      (if a.distance < b.distance then a else b) = a
        ∨ (if a.distance < b.distance then a else b) = b := by
    intro a b; split
    · exact Or.inl rfl
    · exact Or.inr rfl
  have h := foldl_choice_mem (fun best curr => if best.distance < curr.distance then best else curr)
    hf (ls.map (toFaceMatch dist q)) (toFaceMatch dist q l)
  unfold matchDescriptor
  rcases h with h | h
  · rw [h]
    exact List.mem_map.mpr ⟨l, List.mem_cons_self l ls, rfl⟩
  · obtain ⟨ld, hld, heq⟩ := List.mem_map.mp h
    rw [← heq]
    exact List.mem_map.mpr ⟨ld, List.mem_cons_of_mem l hld, rfl⟩

/-- Every path of `recognizeFace` that passes the two early guards reaches the
`try` block and therefore runs the `finally` track stop. -/
theorem recognizeFace_stoppedTracks {α : Type} (dist : α → α → ℚ)
    (l : LabeledFaceDescriptors α) (ls : List (LabeledFaceDescriptors α))
    (operators : List Operator) (today timestamp : String) (detection : Option α)
    (writeOk : Bool) :
    (recognizeFace dist true (l :: ls) operators today timestamp detection writeOk).stoppedTracks
      = true := by
  simp only [recognizeFace]
  rw [if_neg (by simp)]
  cases detection with
  | none => rfl
  | some probe =>
    split
    · contradiction
    · contradiction
    · split
      · split
        · split <;> rfl
        · rfl
      · rfl

/-- Exhaustive list of the possible results of one `recognizeFace` call. -/
theorem recognizeFace_shape {α : Type} (dist : α → α → ℚ) (webcamReady : Bool)
    (gallery : List (LabeledFaceDescriptors α)) (operators : List Operator)
    (today timestamp : String) (detection : Option α) (writeOk : Bool) :
    recognizeFace dist webcamReady gallery operators today timestamp detection writeOk
        = ⟨.webcamNotReady, [], [], 0, false⟩
    ∨ recognizeFace dist webcamReady gallery operators today timestamp detection writeOk
        = ⟨.emptyGallery, [], [], 0, false⟩
    ∨ recognizeFace dist webcamReady gallery operators today timestamp detection writeOk
        = ⟨.noFaceFound, [], [], 0, true⟩
    ∨ recognizeFace dist webcamReady gallery operators today timestamp detection writeOk
        = ⟨.matchedNotFound, [], [], 0, true⟩
    ∨ recognizeFace dist webcamReady gallery operators today timestamp detection writeOk
        = ⟨.rejected, [], [], 0, true⟩
    ∨ (∃ i, recognizeFace dist webcamReady gallery operators today timestamp detection writeOk
        = ⟨.matched i, [⟨i, today, timestamp⟩], [], 0, true⟩)
    ∨ (∃ i, recognizeFace dist webcamReady gallery operators today timestamp detection writeOk
        = ⟨.writeFailed i, [⟨i, today, timestamp⟩], [], 0, true⟩) := by
  simp only [recognizeFace]
  split
  · exact Or.inl rfl
  · split
    · exact Or.inr (Or.inl rfl)
    · exact Or.inr (Or.inr (Or.inl rfl))
    · split
      · split
        · split
          · exact Or.inr (Or.inr (Or.inr (Or.inr (Or.inr (Or.inl ⟨_, rfl⟩)))))
          · exact Or.inr (Or.inr (Or.inr (Or.inr (Or.inr (Or.inr ⟨_, rfl⟩)))))
        · exact Or.inr (Or.inr (Or.inr (Or.inl rfl)))
      · exact Or.inr (Or.inr (Or.inr (Or.inr (Or.inl rfl))))

/-- The gallery builder is the filterMap of the per-operator task over the
input roster. -/
theorem loadDescriptors_eq {α : Type} (fetchDetect : Operator → Option α)
    (operators : List Operator) :
    loadDescriptors fetchDetect operators
      = operators.filterMap
          (fun op => (fetchDetect op).map fun d => LabeledFaceDescriptors.mk op._id [d]) := by
  unfold loadDescriptors
  rw [List.filterMap_map]
  rfl

/-- The gallery labels are the ids of the operators whose fetch and detection
succeeded, in input order. -/
theorem loadDescriptors_label {α : Type} (fetchDetect : Operator → Option α)
    (operators : List Operator) :
    (loadDescriptors fetchDetect operators).map LabeledFaceDescriptors.label
      = (operators.filter fun op => (fetchDetect op).isSome).map Operator._id := by
  rw [loadDescriptors_eq]
  induction operators with
  | nil => rfl
  | cons op ops ih =>
    cases hf : fetchDetect op with
    | none => simp [List.filterMap_cons, hf, List.filter_cons, ih]
    | some d => simp [List.filterMap_cons, hf, List.filter_cons, ih]

/-- Successes and failures partition the roster. -/
theorem filter_isSome_isNone_length {α : Type} (fetchDetect : Operator → Option α)
    (operators : List Operator) :
    (operators.filter fun op => (fetchDetect op).isSome).length
      + (operators.filter fun op => (fetchDetect op).isNone).length
      = operators.length := by
  induction operators with
  | nil => rfl
  | cons op ops ih => cases hf : fetchDetect op <;> simp [List.filter_cons, hf] <;> omega

/-- Provenance of gallery entries: each comes from a successful operator. -/
theorem loadDescriptors_mem {α : Type} (fetchDetect : Operator → Option α)
    (operators : List Operator) :
    ∀ e ∈ loadDescriptors fetchDetect operators,
      ∃ op ∈ operators, ∃ d, fetchDetect op = some d
        ∧ e = LabeledFaceDescriptors.mk op._id [d] := by
  intro e he
  rw [loadDescriptors_eq, List.mem_filterMap] at he
  obtain ⟨op, hop, hsome⟩ := he
  cases hf : fetchDetect op with
  | none => rw [hf] at hsome; simp at hsome
  | some d =>
    rw [hf] at hsome
    simp only [Option.map_some'] at hsome
    exact ⟨op, hop, d, hf, (Option.some_inj.mp hsome).symm⟩

/-! Claim theorems. -/

/-- C2.  For every input roster of n operators of which k fail photo fetch or
face detection, `loadDescriptors` produces a gallery with exactly n − k
entries; when the input ids are distinct (operator ids are unique), each
surviving entry is labeled with the id of the operator it was computed from,
the surviving labels are pairwise distinct, and every entry pairs an input
operator's id with the descriptor computed from that operator's photo.
Failed operators are silently dropped: the gallery is exactly the successes. -/
theorem c2_gallery_builder {α : Type} (fetchDetect : Operator → Option α)
    (operators : List Operator)
    (hids : (operators.map Operator._id).Nodup) :
    (loadDescriptors fetchDetect operators).length
        = operators.length - (operators.filter fun op => (fetchDetect op).isNone).length
    ∧ (loadDescriptors fetchDetect operators).map LabeledFaceDescriptors.label
        = (operators.filter fun op => (fetchDetect op).isSome).map Operator._id
    ∧ ((loadDescriptors fetchDetect operators).map LabeledFaceDescriptors.label).Nodup
    ∧ ∀ e ∈ loadDescriptors fetchDetect operators,
        ∃ op ∈ operators, ∃ d, fetchDetect op = some d
          ∧ e = LabeledFaceDescriptors.mk op._id [d] := by
  have hlab := loadDescriptors_label fetchDetect operators
  have hpart := filter_isSome_isNone_length fetchDetect operators
  have hlen : (loadDescriptors fetchDetect operators).length
      = (operators.filter fun op => (fetchDetect op).isSome).length := by
    have := congrArg List.length hlab
    simpa using this
  refine ⟨by omega, hlab, ?_, loadDescriptors_mem fetchDetect operators⟩
  rw [hlab]
  exact List.Nodup.sublist ((List.filter_sublist operators).map Operator._id) hids

/-- C10.  The gallery builder is order-preserving: the per-operator results
are joined positionally and failures are filtered out without reordering, so
the surviving labels are exactly the ids of the succeeding operators in input
order, and in particular a sublist of the input id sequence. -/
theorem c10_order_preserving {α : Type} (fetchDetect : Operator → Option α)
    (operators : List Operator) :
    loadDescriptors fetchDetect operators
        = operators.filterMap
            (fun op => (fetchDetect op).map fun d => LabeledFaceDescriptors.mk op._id [d])
    ∧ (loadDescriptors fetchDetect operators).map LabeledFaceDescriptors.label
        = (operators.filter fun op => (fetchDetect op).isSome).map Operator._id
    ∧ ((loadDescriptors fetchDetect operators).map LabeledFaceDescriptors.label).Sublist
        (operators.map Operator._id) := by
  refine ⟨loadDescriptors_eq fetchDetect operators, loadDescriptors_label fetchDetect operators, ?_⟩
  rw [loadDescriptors_label]
  exact (List.filter_sublist operators).map Operator._id

/-- C3.  A recognition attempt against an empty gallery never accepts and
never writes: both variants return early with the "no valid face data" report
(`emptyGallery`), leaving every side effect untouched, for every probe and
webcam state. -/
theorem c3_empty_gallery {α : Type} (dist : α → α → ℚ) (webcamReady : Bool)
    (station : String) (operators : List Operator) (today timestamp : String)
    (detection : Option α) (writeOk : Bool) :
    (recognizeFace dist webcamReady [] operators today timestamp detection writeOk).outcome.isAccept
        = false
    ∧ (recognizeFace dist webcamReady [] operators today timestamp detection writeOk).writeAttempts
        = []
    ∧ recognizeFace dist true [] operators today timestamp detection writeOk
        = ⟨.emptyGallery, [], [], 0, false⟩
    ∧ (recognizeFace1 dist webcamReady station [] operators today timestamp detection
        writeOk).outcome.isAccept = false
    ∧ (recognizeFace1 dist webcamReady station [] operators today timestamp detection
        writeOk).writeAttempts = []
    ∧ recognizeFace1 dist true station [] operators today timestamp detection writeOk
        = ⟨.emptyGallery, [], [], 0, false⟩ := by
  cases webcamReady <;>
    simp [recognizeFace, recognizeFace1, Outcome.isAccept]

/-- C1.  For every non-empty gallery whose labels come from the roster and
every probe descriptor, the recognition attempt accepts an identity if and
only if the best match's label is not the sentinel "unknown" and its distance
is strictly below the fixed threshold 0.6; otherwise it rejects, however close
the nearest neighbour is above the threshold.  A failed attendance write does
not undo the acceptance (`writeFailed` is an accepted identity whose write is
merely reported as failed). -/
theorem c1_accept_iff {α : Type} (dist : α → α → ℚ)
    (l : LabeledFaceDescriptors α) (ls : List (LabeledFaceDescriptors α))
    (operators : List Operator) (today timestamp : String) (probe : α) (writeOk : Bool)
    (hcov : ∀ ld ∈ l :: ls, ∃ op ∈ operators, op._id = ld.label) :
    (recognizeFace dist true (l :: ls) operators today timestamp (some probe)
        writeOk).outcome.isAccept = true
      ↔ ((findBestMatch dist (3/5) probe l ls).label ≠ "unknown"
          ∧ (findBestMatch dist (3/5) probe l ls).distance < 3/5) := by
  have hbody : recognizeFace dist true (l :: ls) operators today timestamp (some probe) writeOk
      = (if (findBestMatch dist (3/5) probe l ls).label ≠ "unknown"
            ∧ (findBestMatch dist (3/5) probe l ls).distance < 3/5 then
          match operators.find?
              (fun op => op._id == (findBestMatch dist (3/5) probe l ls).label) with
          | some op =>
            if writeOk then
              ⟨.matched op._id, [⟨op._id, today, timestamp⟩], [], 0, true⟩
            else
              ⟨.writeFailed op._id, [⟨op._id, today, timestamp⟩], [], 0, true⟩
          | none => ⟨.matchedNotFound, [], [], 0, true⟩
        else ⟨.rejected, [], [], 0, true⟩) := rfl
  rw [hbody]
  by_cases hc : (findBestMatch dist (3/5) probe l ls).label ≠ "unknown"
      ∧ (findBestMatch dist (3/5) probe l ls).distance < 3/5
  · rw [if_pos hc]
    have hmem : (findBestMatch dist (3/5) probe l ls).label
        ∈ (l :: ls).map LabeledFaceDescriptors.label := by
      by_cases hlt : (matchDescriptor dist probe l ls).distance < 3/5
      · have heq : findBestMatch dist (3/5) probe l ls = matchDescriptor dist probe l ls := by
          simp only [findBestMatch]
          rw [if_pos hlt]
        rw [heq]
        exact matchDescriptor_label_mem dist probe l ls
      · exfalso
        apply hc.1
        simp only [findBestMatch]
        rw [if_neg hlt]
    obtain ⟨ld, hld, hldlab⟩ := List.mem_map.mp hmem
    obtain ⟨op, hop, hopid⟩ := hcov ld hld
    have hfs : (operators.find?
        (fun op => op._id == (findBestMatch dist (3/5) probe l ls).label)).isSome := by
      rw [List.find?_isSome]
      exact ⟨op, hop, by simp [hopid, hldlab]⟩
    cases hfo : operators.find?
        (fun op => op._id == (findBestMatch dist (3/5) probe l ls).label) with
    | none => rw [hfo] at hfs; simp at hfs
    | some op' =>
      exact iff_of_true (by cases writeOk <;> simp [Outcome.isAccept]) hc
  · rw [if_neg hc]
    exact iff_of_false (by simp [Outcome.isAccept]) hc

/-- Exhaustive list of the possible results of one MainPage1 `recognizeFace`
call. -/
theorem recognizeFace1_shape {α : Type} (dist : α → α → ℚ) (webcamReady : Bool)
    (station : String) (gallery : List (LabeledFaceDescriptors α))
    (operators : List Operator) (today timestamp : String) (detection : Option α)
    (writeOk : Bool) :
    recognizeFace1 dist webcamReady station gallery operators today timestamp detection writeOk
        = ⟨.webcamNotReady, [], [], 0, false⟩
    ∨ recognizeFace1 dist webcamReady station gallery operators today timestamp detection writeOk
        = ⟨.emptyGallery, [], [], 0, false⟩
    ∨ recognizeFace1 dist webcamReady station gallery operators today timestamp detection writeOk
        = ⟨.noFaceFound, [], [(station, timestamp)], 0, true⟩
    ∨ recognizeFace1 dist webcamReady station gallery operators today timestamp detection writeOk
        = ⟨.matchedNotFound, [], [], 0, true⟩
    ∨ recognizeFace1 dist webcamReady station gallery operators today timestamp detection writeOk
        = ⟨.rejected, [], [(station, timestamp)], 0, true⟩
    ∨ (∃ i, recognizeFace1 dist webcamReady station gallery operators today timestamp detection
        writeOk = ⟨.matched i, [⟨i, today, timestamp⟩], [], 0, true⟩)
    ∨ (∃ i, recognizeFace1 dist webcamReady station gallery operators today timestamp detection
        writeOk = ⟨.writeFailed i, [⟨i, today, timestamp⟩], [], 0, true⟩) := by
  simp only [recognizeFace1]
  split
  · exact Or.inl rfl
  · split
    · exact Or.inr (Or.inl rfl)
    · exact Or.inr (Or.inr (Or.inl rfl))
    · split
      · split
        · split
          · exact Or.inr (Or.inr (Or.inr (Or.inr (Or.inr (Or.inl ⟨_, rfl⟩)))))
          · exact Or.inr (Or.inr (Or.inr (Or.inr (Or.inr (Or.inr ⟨_, rfl⟩)))))
        · exact Or.inr (Or.inr (Or.inr (Or.inl rfl)))
      · exact Or.inr (Or.inr (Or.inr (Or.inr (Or.inl rfl))))

/-- C5 counterexample.  On a rejected attempt the MainPage1 variant is not
frame-preserving towards the attendance backing store: with a one-entry
gallery and a probe at distance 1 from it (threshold 0.6), the attempt is
rejected with no attendance record write, but a failure report
`{station, timestamp}` is POSTed to the attendance fail endpoint, so the
backing store is touched. -/
theorem c5_counterexample :
    (recognizeFace1 wdistFar true "Station 1" [⟨"A", [(0:ℚ)]⟩] [opA] "2026-02-03" "t0"
        (some 0) true).outcome = .rejected
    ∧ (recognizeFace1 wdistFar true "Station 1" [⟨"A", [(0:ℚ)]⟩] [opA] "2026-02-03" "t0"
        (some 0) true).writeAttempts = []
    ∧ (recognizeFace1 wdistFar true "Station 1" [⟨"A", [(0:ℚ)]⟩] [opA] "2026-02-03" "t0"
        (some 0) true).failReports = [("Station 1", "t0")]
    ∧ (recognizeFace1 wdistFar true "Station 1" [⟨"A", [(0:ℚ)]⟩] [opA] "2026-02-03" "t0"
        (some 0) true).failReports ≠ [] := by
  have heval : recognizeFace1 wdistFar true "Station 1" [⟨"A", [(0:ℚ)]⟩] [opA] "2026-02-03" "t0"
      (some 0) true = ⟨.rejected, [], [("Station 1", "t0")], 0, true⟩ := by
    simp only [recognizeFace1, findBestMatch, matchDescriptor, toFaceMatch,
      computeMeanDistance, wdistFar]
    norm_num
  rw [heval]
  refine ⟨rfl, rfl, rfl, by simp⟩

/-- C5 (amended).  On every rejected recognition attempt no attendance record
is written and no notification is published, in both variants; the MainPage
variant touches nothing else either, while the MainPage1 variant additionally
reports the failed attempt to the attendance fail endpoint. -/
theorem c5_rejected_frame {α : Type} (dist dist1 : α → α → ℚ) (wr wr1 : Bool)
    (station : String) (g g1 : List (LabeledFaceDescriptors α))
    (ops ops1 : List Operator) (td td1 ts ts1 : String) (det det1 : Option α)
    (w w1 : Bool)
    (h1 : (recognizeFace dist wr g ops td ts det w).outcome = .rejected)
    (h2 : (recognizeFace1 dist1 wr1 station g1 ops1 td1 ts1 det1 w1).outcome = .rejected) :
    recognizeFace dist wr g ops td ts det w = ⟨.rejected, [], [], 0, true⟩
    ∧ (recognizeFace1 dist1 wr1 station g1 ops1 td1 ts1 det1 w1).writeAttempts = []
    ∧ (recognizeFace1 dist1 wr1 station g1 ops1 td1 ts1 det1 w1).published = 0 := by
  rcases recognizeFace_shape dist wr g ops td ts det w with h|h|h|h|h|⟨i,h⟩|⟨i,h⟩ <;>
    rcases recognizeFace1_shape dist1 wr1 station g1 ops1 td1 ts1 det1 w1 with
      h'|h'|h'|h'|h'|⟨j,h'⟩|⟨j,h'⟩ <;>
    simp_all

/-- C4 (code evaluation at the failing input).  On an accepted match the
session performs exactly one attendance write carrying the matched operator's
id, and a failed write is reported without retry and without undoing the
match; but the notifier step is defective: MainPage1's `handleMarkAttendance`
reaches its publish call and faults on the undefined `formattedAttendance`
(zero MQTT messages, error alert raised), and the MainPage variant performs no
notifier publish at all. -/
theorem c4_notifier_defect :
    (handleMarkAttendance1 wdistNear true "Station 1" [⟨"A", [(0:ℚ)]⟩] [opA] "2026-02-03" "t0"
        (some 0) true).attempt.outcome = .matched "A"
    ∧ (handleMarkAttendance1 wdistNear true "Station 1" [⟨"A", [(0:ℚ)]⟩] [opA] "2026-02-03" "t0"
        (some 0) true).attempt.writeAttempts = [⟨"A", "2026-02-03", "t0"⟩]
    ∧ (handleMarkAttendance1 wdistNear true "Station 1" [⟨"A", [(0:ℚ)]⟩] [opA] "2026-02-03" "t0"
        (some 0) true).publishAttempted = true
    ∧ (handleMarkAttendance1 wdistNear true "Station 1" [⟨"A", [(0:ℚ)]⟩] [opA] "2026-02-03" "t0"
        (some 0) true).mqttPublished = 0
    ∧ (handleMarkAttendance1 wdistNear true "Station 1" [⟨"A", [(0:ℚ)]⟩] [opA] "2026-02-03" "t0"
        (some 0) true).errorAlert = true
    ∧ (recognizeFace wdistNear true [⟨"A", [(0:ℚ)]⟩] [opA] "2026-02-03" "t0"
        (some 0) true).published = 0
    ∧ (recognizeFace wdistNear true [⟨"A", [(0:ℚ)]⟩] [opA] "2026-02-03" "t0"
        (some 0) false).outcome = .writeFailed "A"
    ∧ (recognizeFace wdistNear true [⟨"A", [(0:ℚ)]⟩] [opA] "2026-02-03" "t0"
        (some 0) false).writeAttempts = [⟨"A", "2026-02-03", "t0"⟩] := by
  have heval1 : recognizeFace1 wdistNear true "Station 1" [⟨"A", [(0:ℚ)]⟩] [opA] "2026-02-03"
      "t0" (some 0) true = ⟨.matched "A", [⟨"A", "2026-02-03", "t0"⟩], [], 0, true⟩ := by
    simp only [recognizeFace1, findBestMatch, matchDescriptor, toFaceMatch,
      computeMeanDistance, wdistNear, opA, List.find?]
    norm_num
    decide
  have heval2 : recognizeFace wdistNear true [⟨"A", [(0:ℚ)]⟩] [opA] "2026-02-03" "t0"
      (some 0) true = ⟨.matched "A", [⟨"A", "2026-02-03", "t0"⟩], [], 0, true⟩ := by
    simp only [recognizeFace, findBestMatch, matchDescriptor, toFaceMatch,
      computeMeanDistance, wdistNear, opA, List.find?]
    norm_num
    decide
  have heval3 : recognizeFace wdistNear true [⟨"A", [(0:ℚ)]⟩] [opA] "2026-02-03" "t0"
      (some 0) false = ⟨.writeFailed "A", [⟨"A", "2026-02-03", "t0"⟩], [], 0, true⟩ := by
    simp only [recognizeFace, findBestMatch, matchDescriptor, toFaceMatch,
      computeMeanDistance, wdistNear, opA, List.find?]
    norm_num
    decide
  simp only [handleMarkAttendance1, heval1, heval2, heval3]
  exact ⟨trivial, trivial, trivial, trivial, trivial, trivial, trivial, trivial⟩

/-- C6.  Every terminal state of an attempt that reaches the detection phase
(`NoFaceFound`, `Rejected`, `Matched`, write-failure and even
matched-not-found) stops the live camera track exactly once: the `finally`
block performs the single `live` to `stopped` transition, the track is no
longer live afterwards, a subsequent teardown adds no further stop, and
session teardown itself never leaves a live track on any exit path (so the
empty-gallery and webcam-not-ready early exits, which keep the camera open
for a retry, are closed at teardown and leak nothing). -/
theorem c6_camera_release {α : Type} (dist : α → α → ℚ)
    (l : LabeledFaceDescriptors α) (ls : List (LabeledFaceDescriptors α))
    (operators : List Operator) (today timestamp : String) (detection : Option α)
    (writeOk : Bool) (s : SessionState)
    (hrec : s.recognizing = true) (htr : s.track = .live) :
    (completeAttempt dist (l :: ls) operators today timestamp detection writeOk s).stops
        = s.stops + 1
    ∧ (completeAttempt dist (l :: ls) operators today timestamp detection writeOk s).track
        = .stopped
    ∧ (teardown (completeAttempt dist (l :: ls) operators today timestamp detection writeOk
        s)).stops = s.stops + 1
    ∧ ∀ s2 : SessionState, (teardown s2).track ≠ .live := by
  have hst := recognizeFace_stoppedTracks dist l ls operators today timestamp detection writeOk
  refine ⟨?_, ?_, ?_, ?_⟩
  · simp [completeAttempt, hrec, htr, TrackState.isLive, hst, stopTracks]
  · simp [completeAttempt, hrec, htr, TrackState.isLive, hst, stopTracks]
  · simp [teardown, completeAttempt, hrec, htr, TrackState.isLive, hst, stopTracks]
  · intro s2
    cases h2 : s2.track <;> simp [teardown, stopTracks, h2]

/-- C7.  At most one recognition attempt is in flight per session: the trigger
button is disabled while `isRecognizing`, so a trigger on a busy session is a
complete no-op, a double trigger equals a single trigger, and in particular
two simultaneous triggers produce the writes of exactly one attempt. -/
theorem c7_single_flight {α : Type} (dist : α → α → ℚ)
    (gallery : List (LabeledFaceDescriptors α)) (operators : List Operator)
    (today timestamp : String) (detection : Option α) (writeOk : Bool)
    (s : SessionState) (h : s.recognizing = true) :
    press s = s
    ∧ (∀ s0 : SessionState, press (press s0) = press s0)
    ∧ (∀ s0 : SessionState,
        completeAttempt dist gallery operators today timestamp detection writeOk
            (press (press s0))
          = completeAttempt dist gallery operators today timestamp detection writeOk
            (press s0)) := by
  have hpp : ∀ s0 : SessionState, press (press s0) = press s0 := by
    intro s0
    by_cases h0 : s0.recognizing
    · simp [press, h0]
    · simp [press, h0]
  exact ⟨by simp [press, h], hpp, fun s0 => by rw [hpp s0]⟩

/-- C8.  Publishing while the MQTT channel is disconnected is a harmless
no-op: `publishLedStatus` is a total function that merely logs
"MQTT not connected" and returns, delivering no message; it never raises to
the caller, and it does not touch anything outside the mqtt service state (in
particular no attendance write is affected). -/
theorem c8_disconnected_publish (line : String) (ledIndex : Int) (status : String)
    (s : MqttState) (h : s.connected = false) :
    publishLedStatus line ledIndex status s
        = { s with log := s.log ++ ["MQTT not connected"] }
    ∧ (publishLedStatus line ledIndex status s).published = s.published
    ∧ (publishLedStatus line ledIndex status s).connected = s.connected := by
  refine ⟨by simp [publishLedStatus, h], by simp [publishLedStatus, h], by simp [publishLedStatus, h]⟩

/-- Membership in the offered LED-index list: exactly the in-range indexes not
currently assigned to any operator. -/
theorem mem_getAvailableLedIndexes {operators : List Operator} {x : Int} :
    x ∈ getAvailableLedIndexes operators
      ↔ (0 ≤ x ∧ x ≤ 20 ∧ x ∉ operators.map Operator.ledIndex) := by
  unfold getAvailableLedIndexes
  rw [List.mem_filter]
  constructor
  · rintro ⟨hmem, hpred⟩
    obtain ⟨n, hn, rfl⟩ := List.mem_map.mp hmem
    rw [List.mem_range] at hn
    refine ⟨by rw [Int.ofNat_eq_coe]; omega, by rw [Int.ofNat_eq_coe]; omega, ?_⟩
    intro hx
    obtain ⟨o, ho, holed⟩ := List.mem_map.mp hx
    simp at hpred
    exact hpred o ho (by rw [holed, Int.ofNat_eq_coe])
  · rintro ⟨h0, h20, hnot⟩
    refine ⟨?_, by simp [hnot]⟩
    exact List.mem_map.mpr ⟨x.toNat, List.mem_range.mpr (by omega),
      by rw [Int.ofNat_eq_coe]; omega⟩

/-- C9.  LED indexes are unique and bounded through the add and delete paths:
every index offered by the add-operator dropdown is within 0..20 and not yet
assigned; the add validation rejects any out-of-range index; adding an
operator whose index was taken from the offered list keeps the assigned
indexes pairwise distinct; and deleting an operator frees its (in-range) LED
index, which is offered again afterwards. -/
theorem c9_led_index (operators : List Operator) (op : Operator) (i j : Int)
    (hi : i ∈ getAvailableLedIndexes operators)
    (hled : (operators.map Operator.ledIndex).Nodup)
    (hopled : op.ledIndex = i)
    (hj : j < 0 ∨ 20 < j)
    (delOp : Operator) (hdel : delOp ∈ operators)
    (hlo : 0 ≤ delOp.ledIndex) (hhi : delOp.ledIndex ≤ 20) :
    (0 ≤ i ∧ i ≤ 20 ∧ i ∉ operators.map Operator.ledIndex)
    ∧ ledIndexValid (some j) = false
    ∧ ((addOperator operators op).map Operator.ledIndex).Nodup
    ∧ delOp.ledIndex ∈ getAvailableLedIndexes (deleteOperator operators delOp._id) := by
  obtain ⟨h0, h20, hnotin⟩ := mem_getAvailableLedIndexes.mp hi
  refine ⟨⟨h0, h20, hnotin⟩, ?_, ?_, ?_⟩
  · rcases hj with h | h <;> simp [ledIndexValid] <;> omega
  · rw [addOperator, List.map_append]
    refine List.Nodup.append hled (List.nodup_singleton _) ?_
    intro a ha hb
    simp at hb
    rw [hb, hopled] at ha
    exact hnotin ha
  · have hpw : operators.Pairwise (fun a b => a.ledIndex ≠ b.ledIndex) :=
      List.pairwise_map.mp hled
    have hsymm : Symmetric (fun a b : Operator => a.ledIndex ≠ b.ledIndex) :=
      fun a b h => Ne.symm h
    have hnot : delOp.ledIndex ∉ (deleteOperator operators delOp._id).map Operator.ledIndex := by
      intro hmem2
      obtain ⟨o, ho, holed⟩ := List.mem_map.mp hmem2
      obtain ⟨ho1, ho2⟩ := List.mem_filter.mp ho
      have hne_id : o._id ≠ delOp._id := by simpa using ho2
      have hne : o ≠ delOp := fun he => hne_id (by rw [he])
      exact List.Pairwise.forall hsymm hpw ho1 hdel hne holed
    exact mem_getAvailableLedIndexes.mpr ⟨hlo, hhi, hnot⟩

/-! Witnesses: each theorem above that carries a hypothesis is exercised at a
concrete input. -/

/-- Witness for C1: a one-entry gallery labeled "A" built from the roster
`[opA]`, probe at distance 0. -/
theorem c1_accept_iff_witness :
    (recognizeFace wdistNear true [⟨"A", [(0:ℚ)]⟩] [opA] "2026-02-03" "t0" (some 0)
        true).outcome.isAccept = true
      ↔ ((findBestMatch wdistNear (3/5) 0 ⟨"A", [(0:ℚ)]⟩ []).label ≠ "unknown"
          ∧ (findBestMatch wdistNear (3/5) 0 ⟨"A", [(0:ℚ)]⟩ []).distance < 3/5) :=
  c1_accept_iff wdistNear ⟨"A", [(0:ℚ)]⟩ [] [opA] "2026-02-03" "t0" 0 true
    (by
      intro ld hld
      rw [List.mem_singleton] at hld
      subst hld
      exact ⟨opA, List.mem_singleton.mpr rfl, rfl⟩)

/-- Witness for C2: a two-operator roster where operator "B" fails. -/
theorem c2_gallery_builder_witness :
    (loadDescriptors fetchW [opA, opB]).length
        = [opA, opB].length - ([opA, opB].filter fun op => (fetchW op).isNone).length
    ∧ (loadDescriptors fetchW [opA, opB]).map LabeledFaceDescriptors.label
        = ([opA, opB].filter fun op => (fetchW op).isSome).map Operator._id
    ∧ ((loadDescriptors fetchW [opA, opB]).map LabeledFaceDescriptors.label).Nodup
    ∧ ∀ e ∈ loadDescriptors fetchW [opA, opB],
        ∃ op ∈ [opA, opB], ∃ d, fetchW op = some d
          ∧ e = LabeledFaceDescriptors.mk op._id [d] :=
  c2_gallery_builder fetchW [opA, opB] (by decide)

/-- Witness for C5 (amended): both variants rejecting a probe at distance 1. -/
theorem c5_rejected_frame_witness :
    recognizeFace wdistFar true [⟨"A", [(0:ℚ)]⟩] [opA] "2026-02-03" "t0" (some 0) true
        = ⟨.rejected, [], [], 0, true⟩
    ∧ (recognizeFace1 wdistFar true "Station 1" [⟨"A", [(0:ℚ)]⟩] [opA] "2026-02-03" "t0"
        (some 0) true).writeAttempts = []
    ∧ (recognizeFace1 wdistFar true "Station 1" [⟨"A", [(0:ℚ)]⟩] [opA] "2026-02-03" "t0"
        (some 0) true).published = 0 :=
  c5_rejected_frame wdistFar wdistFar true true "Station 1" [⟨"A", [(0:ℚ)]⟩]
    [⟨"A", [(0:ℚ)]⟩] [opA] [opA] "2026-02-03" "2026-02-03" "t0" "t0" (some 0) (some 0)
    true true
    (by
      simp only [recognizeFace, findBestMatch, matchDescriptor, toFaceMatch,
        computeMeanDistance, wdistFar]
      norm_num)
    (by
      simp only [recognizeFace1, findBestMatch, matchDescriptor, toFaceMatch,
        computeMeanDistance, wdistFar]
      norm_num)

/-- Witness for C6: an in-flight attempt on a live track. -/
theorem c6_camera_release_witness :
    (completeAttempt wdistNear [⟨"A", [(0:ℚ)]⟩] [opA] "2026-02-03" "t0" (some 0) true
        sRecLive).stops = sRecLive.stops + 1
    ∧ (completeAttempt wdistNear [⟨"A", [(0:ℚ)]⟩] [opA] "2026-02-03" "t0" (some 0) true
        sRecLive).track = .stopped
    ∧ (teardown (completeAttempt wdistNear [⟨"A", [(0:ℚ)]⟩] [opA] "2026-02-03" "t0" (some 0)
        true sRecLive)).stops = sRecLive.stops + 1
    ∧ ∀ s2 : SessionState, (teardown s2).track ≠ .live :=
  c6_camera_release wdistNear ⟨"A", [(0:ℚ)]⟩ [] [opA] "2026-02-03" "t0" (some 0) true
    sRecLive rfl rfl

/-- Witness for C7: a busy session ignores further triggers. -/
theorem c7_single_flight_witness :
    press sRecLive = sRecLive
    ∧ (∀ s0 : SessionState, press (press s0) = press s0)
    ∧ (∀ s0 : SessionState,
        completeAttempt wdistNear [⟨"A", [(0:ℚ)]⟩] [opA] "2026-02-03" "t0" (some 0) true
            (press (press s0))
          = completeAttempt wdistNear [⟨"A", [(0:ℚ)]⟩] [opA] "2026-02-03" "t0" (some 0) true
            (press s0)) :=
  c7_single_flight wdistNear [⟨"A", [(0:ℚ)]⟩] [opA] "2026-02-03" "t0" (some 0) true
    sRecLive rfl

/-- Witness for C8: publishing on the disconnected sample service. -/
theorem c8_disconnected_publish_witness :
    publishLedStatus "line1" 3 "present" mqttDisconnected
        = { mqttDisconnected with log := mqttDisconnected.log ++ ["MQTT not connected"] }
    ∧ (publishLedStatus "line1" 3 "present" mqttDisconnected).published
        = mqttDisconnected.published
    ∧ (publishLedStatus "line1" 3 "present" mqttDisconnected).connected
        = mqttDisconnected.connected :=
  c8_disconnected_publish "line1" 3 "present" mqttDisconnected rfl

/-- Witness for C9: roster `[opA]` (LED 3), adding `opB` with offered LED 5,
rejecting the out-of-range index 21, and deleting `opA` frees LED 3. -/
theorem c9_led_index_witness :
    (0 ≤ (5:ℤ) ∧ (5:ℤ) ≤ 20 ∧ (5:ℤ) ∉ [opA].map Operator.ledIndex)
    ∧ ledIndexValid (some 21) = false
    ∧ ((addOperator [opA] opB).map Operator.ledIndex).Nodup
    ∧ opA.ledIndex ∈ getAvailableLedIndexes (deleteOperator [opA] opA._id) :=
  c9_led_index [opA] opB 5 21 (by decide) (by decide) (by decide) (Or.inr (by decide))
    opA (by decide) (by decide) (by decide)

end OperatorFrontend
